import Mathlib

/-!
Shallow embedding of the VTuber Wiki API facade (src/main.py).

The facade translates inbound HTTP operations into calls against an
upstream PostgREST-style tabular store.  We model the upstream store as
an oracle `store : Nat → UpstreamResp` giving the response to the i-th
outbound call of a handler, and each handler as a pure function
returning the handler outcome (an `Except HErr (Nat × α)`, where the
`Nat` is the HTTP success status declared on the route) together with
the ordered list of upstream calls it issued.

Python strings are modelled as Lean `String`s; the Python operations
`str.lower` and `str.startswith` are modelled on the underlying
character lists (`String.data`), which matches Python code-point
semantics and keeps everything kernel-computable.
-/

namespace VtuberApi

/-- Python `s.lower()` (per code point, as `str.lower` on ASCII data). -/
def pyLower (s : String) : String := ⟨s.data.map Char.toLower⟩

/-- Python `s.startswith(pre)`. -/
def pyStartsWith (s pre : String) : Bool := pre.data.isPrefixOf s.data

/-- Python truthiness of an `Optional[str]`: `None` and `""` are falsy. -/
def pyTruthyStr : Option String → Bool
  | none => false
  | some s => s ≠ ""

/-- An error raised by the facade (FastAPI `HTTPException`): status code and detail. -/
structure HErr where
  status : Nat
  detail : String
deriving DecidableEq, Repr

/-- `raise HTTPException(401, ...)` from `get_user_token` (src/main.py:77-80). -/
def unauthorizedErr : HErr :=
  ⟨401, "Missing or invalid Authorization header. Required for this operation."⟩

/-- FastAPI request-validation failure (pydantic model constraint violated):
the whole request is rejected with status 422 before the handler body runs. -/
def validationErr : HErr := ⟨422, "Unprocessable Entity"⟩

/-- `get_user_token` (src/main.py:74-81): raises 401 unless the Authorization
header is truthy and its lowercase form starts with `"bearer "`; otherwise
returns the header unchanged. -/
def get_user_token (authorization : Option String) : Except HErr String :=
  if !(pyTruthyStr authorization) ||
      !(pyStartsWith (pyLower (authorization.getD "")) "bearer ") then
    .error unauthorizedErr
  else
    .ok (authorization.getD "")

/-- `postgrest_headers` (src/main.py:83-93): fixed headers plus, when the
given value is truthy, an `Authorization` entry holding it verbatim. -/
def postgrest_headers (anonKey : String) (user_authorization : Option String) :
    List (String × String) :=
  let headers := [("apikey", anonKey), ("Content-Type", "application/json"),
    ("Accept", "application/json"), ("Prefer", "return=representation")]
  if pyTruthyStr user_authorization then
    headers ++ [("Authorization", user_authorization.getD "")]
  else
    headers

/-- A JSON field value occurring in a VTuber payload dump. -/
inductive JVal where
  | s (v : String)
  | arr (v : List String)
deriving DecidableEq, Repr

/-- `VTuberCreate` (src/main.py:37-45). -/
structure VTuberCreate where
  name : String
  agency : Option String := none
  debut_date : Option String := none
  description : Option String := none
  image_url : Option String := none
  youtube_channel : Option String := none
  twitter_handle : Option String := none
  tags : Option (List String) := none
deriving DecidableEq, Repr

/-- pydantic validation of `VTuberCreate`: `name` has `min_length=1,
max_length=100`, `agency` has `max_length=100` (src/main.py:38-39). -/
def VTuberCreate.validate (v : VTuberCreate) : Bool :=
  decide (1 ≤ v.name.length) && decide (v.name.length ≤ 100) &&
    (match v.agency with
     | some a => decide (a.length ≤ 100)
     | none => true)

/-- `payload.model_dump(mode="json")` for `VTuberCreate`: keys in field
order, null fields mapped to `none`. -/
def VTuberCreate.model_dump (v : VTuberCreate) : List (String × Option JVal) :=
  [("name", some (.s v.name)),
   ("agency", v.agency.map .s),
   ("debut_date", v.debut_date.map .s),
   ("description", v.description.map .s),
   ("image_url", v.image_url.map .s),
   ("youtube_channel", v.youtube_channel.map .s),
   ("twitter_handle", v.twitter_handle.map .s),
   ("tags", v.tags.map .arr)]

/-- `VTuberUpdate` (src/main.py:47-55): all fields optional. -/
structure VTuberUpdate where
  name : Option String := none
  agency : Option String := none
  debut_date : Option String := none
  description : Option String := none
  image_url : Option String := none
  youtube_channel : Option String := none
  twitter_handle : Option String := none
  tags : Option (List String) := none
deriving DecidableEq, Repr

/-- pydantic validation of `VTuberUpdate`: `name`, when present, has
`min_length=1, max_length=100` (src/main.py:48). -/
def VTuberUpdate.validate (u : VTuberUpdate) : Bool :=
  match u.name with
  | some n => decide (1 ≤ n.length) && decide (n.length ≤ 100)
  | none => true

/-- `payload.model_dump(mode="json")` for `VTuberUpdate`. -/
def VTuberUpdate.model_dump (u : VTuberUpdate) : List (String × Option JVal) :=
  [("name", u.name.map .s),
   ("agency", u.agency.map .s),
   ("debut_date", u.debut_date.map .s),
   ("description", u.description.map .s),
   ("image_url", u.image_url.map .s),
   ("youtube_channel", u.youtube_channel.map .s),
   ("twitter_handle", u.twitter_handle.map .s),
   ("tags", u.tags.map .arr)]

/-- `VTuberBulkCreate` (src/main.py:70-71). -/
structure VTuberBulkCreate where
  vtubers : List VTuberCreate
deriving DecidableEq, Repr

/-- A row of the upstream table, as in `VTuberOut` (src/main.py:57-68). -/
structure Row where
  id : String
  name : String
  agency : Option String := none
  debut_date : Option String := none
  description : Option String := none
  image_url : Option String := none
  youtube_channel : Option String := none
  twitter_handle : Option String := none
  tags : Option (List String) := none
  created_at : String := ""
  updated_at : String := ""
deriving DecidableEq, Repr

/-- An upstream HTTP response: status code, raw body text (`r.text`) and
parsed JSON body (`r.json()`, a list of rows). -/
structure UpstreamResp where
  status : Nat
  text : String := ""
  json : List Row := []
deriving DecidableEq, Repr

/-- An outbound call to the upstream store (all go to `POSTGREST_URL/TABLE`). -/
inductive UpstreamCall where
  | get (headers : List (String × String)) (params : List (String × String))
  | post (headers : List (String × String)) (body : List (String × Option JVal))
  | patch (headers : List (String × String)) (params : List (String × String))
      (body : List (String × JVal))
  | delete (headers : List (String × String)) (params : List (String × String))
deriving DecidableEq, Repr

/-- The upstream oracle: response to the i-th outbound call of a handler. -/
abbrev Store := Nat → UpstreamResp

/-- Handler outcome: error, or success `(status, body)`, plus the ordered
list of upstream calls issued. -/
abbrev HResult (α : Type) := (Except HErr (Nat × α)) × List UpstreamCall

instance {ε α : Type} [DecidableEq ε] [DecidableEq α] : DecidableEq (Except ε α) :=
  fun x y =>
    match x, y with
    | .ok a, .ok b =>
      match decEq a b with
      | isTrue h => isTrue (h ▸ rfl)
      | isFalse h => isFalse fun hc => h (Except.ok.inj hc)
    | .error a, .error b =>
      match decEq a b with
      | isTrue h => isTrue (h ▸ rfl)
      | isFalse h => isFalse fun hc => h (Except.error.inj hc)
    | .ok _, .error _ => isFalse fun hc => Except.noConfusion hc
    | .error _, .ok _ => isFalse fun hc => Except.noConfusion hc

/-- `list_vtubers` (src/main.py:122-149): `GET /vtubers`. -/
def list_vtubers (anonKey : String) (store : Store)
    (limit : Int := 50) (offset : Int := 0) (agency : Option String := none)
    (sort_by : String := "name") : HResult (List Row) :=
  let params₀ := [("select", "*"),
    ("limit", toString (min limit 100)),
    ("offset", toString (max offset 0)),
    ("order", sort_by ++ ".asc")]
  let params := if pyTruthyStr agency then
      params₀ ++ [("agency", "eq." ++ agency.getD "")]
    else params₀
  let r := store 0
  let call := UpstreamCall.get (postgrest_headers anonKey none) params
  if r.status ≥ 400 then (.error ⟨r.status, r.text⟩, [call])
  else (.ok (200, r.json), [call])

/-- `get_vtuber` (src/main.py:151-169): `GET /vtubers/{id}`. -/
def get_vtuber (anonKey : String) (store : Store) (vtuber_id : String) :
    HResult (List Row) :=
  let params := [("select", "*"), ("id", "eq." ++ vtuber_id)]
  let r := store 0
  let call := UpstreamCall.get (postgrest_headers anonKey none) params
  if r.status ≥ 400 then (.error ⟨r.status, r.text⟩, [call])
  else if r.json = [] then (.error ⟨404, "VTuber not found"⟩, [call])
  else (.ok (200, r.json), [call])

/-- `search_vtubers` (src/main.py:171-194): `GET /search`. -/
def search_vtubers (anonKey : String) (store : Store)
    (q : String) (limit : Int := 20) (offset : Int := 0) : HResult (List Row) :=
  let params := [("select", "*"),
    ("limit", toString (min limit 50)),
    ("offset", toString (max offset 0)),
    ("or", "(name.ilike.*" ++ q ++ "*,description.ilike.*" ++ q ++ "*)")]
  let r := store 0
  let call := UpstreamCall.get (postgrest_headers anonKey none) params
  if r.status ≥ 400 then (.error ⟨r.status, r.text⟩, [call])
  else (.ok (200, r.json), [call])

/-- `list_agencies` (src/main.py:196-216): `GET /agencies`; collects truthy
`agency` values, deduplicates (`set`) and sorts them (`sorted`). -/
def list_agencies (anonKey : String) (store : Store) : HResult (List String) :=
  let params := [("select", "agency"), ("agency", "not.is.null"),
    ("order", "agency.asc")]
  let r := store 0
  let call := UpstreamCall.get (postgrest_headers anonKey none) params
  if r.status ≥ 400 then (.error ⟨r.status, r.text⟩, [call])
  else
    let agencies := (r.json.filter (fun item => pyTruthyStr item.agency)).map
      (fun item => item.agency.getD "")
    (.ok (200, List.insertionSort (· ≤ ·) agencies.dedup), [call])

/-- `create_vtuber` (src/main.py:219-231): `POST /vtubers`.  FastAPI solves
the auth dependency first, then validates the body model; the handler then
issues a single insertion and relays errors. -/
def create_vtuber (anonKey : String) (store : Store) (payload : VTuberCreate)
    (authorization : Option String) : HResult (List Row) :=
  match get_user_token authorization with
  | .error e => (.error e, [])
  | .ok auth =>
    if ¬ payload.validate then (.error validationErr, [])
    else
      let r := store 0
      let call := UpstreamCall.post (postgrest_headers anonKey (some auth))
        payload.model_dump
      if r.status ≥ 400 then (.error ⟨r.status, r.text⟩, [call])
      else (.ok (201, r.json), [call])

/-- The shared loop of the two bulk endpoints (src/main.py:237-247 and
252-263): one sequential insertion per payload, skipping (`continue`) any
whose response status is ≥ 400 and extending the accumulator with the
response rows otherwise.  `i` is the index of the next upstream call. -/
def bulk_loop (anonKey auth : String) (store : Store) :
    List VTuberCreate → Nat → List Row × List UpstreamCall
  | [], _ => ([], [])
  | v :: vs, i =>
    let r := store i
    let call := UpstreamCall.post (postgrest_headers anonKey (some auth))
      v.model_dump
    let rest := bulk_loop anonKey auth store vs (i + 1)
    if r.status ≥ 400 then (rest.1, call :: rest.2)
    else (r.json ++ rest.1, call :: rest.2)

/-- `create_vtubers_batch` (src/main.py:249-263): `POST /vtubers/batch`,
taking the bare list of payloads. -/
def create_vtubers_batch (anonKey : String) (store : Store)
    (vtubers : List VTuberCreate) (authorization : Option String) :
    HResult (List Row) :=
  match get_user_token authorization with
  | .error e => (.error e, [])
  | .ok auth =>
    if ¬ vtubers.all VTuberCreate.validate then (.error validationErr, [])
    else
      let out := bulk_loop anonKey auth store vtubers 0
      (.ok (201, out.1), out.2)

/-- `create_vtubers_bulk` (src/main.py:233-247): `POST /vtubers/bulk`,
taking the wrapping object. -/
def create_vtubers_bulk (anonKey : String) (store : Store)
    (payload : VTuberBulkCreate) (authorization : Option String) :
    HResult (List Row) :=
  match get_user_token authorization with
  | .error e => (.error e, [])
  | .ok auth =>
    if ¬ payload.vtubers.all VTuberCreate.validate then (.error validationErr, [])
    else
      let out := bulk_loop anonKey auth store payload.vtubers 0
      (.ok (201, out.1), out.2)

/-- `{k: v for k, v in payload.model_dump(mode="json").items() if v is not None}`
(src/main.py:268). -/
def update_data (u : VTuberUpdate) : List (String × JVal) :=
  u.model_dump.filterMap (fun kv => kv.2.map (fun v => (kv.1, v)))

/-- `update_vtuber` (src/main.py:265-287): `PUT /vtubers/{id}`. -/
def update_vtuber (anonKey : String) (store : Store) (vtuber_id : String)
    (payload : VTuberUpdate) (authorization : Option String) :
    HResult (List Row) :=
  match get_user_token authorization with
  | .error e => (.error e, [])
  | .ok auth =>
    if ¬ payload.validate then (.error validationErr, [])
    else
      let data := update_data payload
      if data = [] then (.error ⟨400, "No fields to update"⟩, [])
      else
        let r := store 0
        let call := UpstreamCall.patch (postgrest_headers anonKey (some auth))
          [("id", "eq." ++ vtuber_id)] data
        if r.status ≥ 400 then (.error ⟨r.status, r.text⟩, [call])
        else if r.json = [] then (.error ⟨404, "VTuber not found"⟩, [call])
        else (.ok (200, r.json), [call])

/-- `delete_vtuber` (src/main.py:289-301): `DELETE /vtubers/{id}`; success
status 204, no inspection of the response body. -/
def delete_vtuber (anonKey : String) (store : Store) (vtuber_id : String)
    (authorization : Option String) : HResult Unit :=
  match get_user_token authorization with
  | .error e => (.error e, [])
  | .ok auth =>
    let r := store 0
    let call := UpstreamCall.delete (postgrest_headers anonKey (some auth))
      [("id", "eq." ++ vtuber_id)]
    if r.status ≥ 400 then (.error ⟨r.status, r.text⟩, [call])
    else (.ok (204, ()), [call])

/-! ### Helper lemmas and concrete fixtures -/

/-- An upstream oracle that accepts everything with an empty row list. -/
def storeAllOk : Store := fun _ => ⟨201, "", []⟩

/-- An upstream oracle that always fails with status 500 and body "boom". -/
def storeFail : Store := fun _ => ⟨500, "boom", []⟩

/-- A concrete valid create payload. -/
def payloadAria : VTuberCreate := { name := "Aria" }

/-- A concrete row, as returned by the upstream store. -/
def rowAria : Row := { id := "u1", name := "Aria", created_at := "t0", updated_at := "t0" }

lemma get_user_token_none : get_user_token none = .error unauthorizedErr := rfl

lemma get_user_token_some (s : String) :
    get_user_token (some s) =
      if pyStartsWith (pyLower s) "bearer " then .ok s else .error unauthorizedErr := by
  by_cases hb : pyStartsWith (pyLower s) "bearer " = true
  · have hne : s ≠ "" := by
      intro he
      subst he
      exact absurd hb (by decide)
    simp [get_user_token, pyTruthyStr, hne, hb]
  · rw [Bool.not_eq_true] at hb
    by_cases hne : s = ""
    · subst hne
      simp [get_user_token, pyTruthyStr, hb]
    · simp [get_user_token, pyTruthyStr, hne, hb]

lemma get_user_token_blocked {authorization : Option String}
    (h : ∀ s, authorization = some s → pyStartsWith (pyLower s) "bearer " = false) :
    get_user_token authorization = .error unauthorizedErr := by
  cases authorization with
  | none => exact get_user_token_none
  | some s => rw [get_user_token_some, h s rfl]; simp

/-- C10 helper: a guard-passing header is nonempty. -/
lemma bearer_ne_empty {s : String} (h : pyStartsWith (pyLower s) "bearer " = true) :
    s ≠ "" := by
  intro he
  subst he
  exact absurd h (by decide)

/-- C10: the guard errors with status 401 exactly when the header is absent or
its lowercase form does not start with "bearer "; "Bearer " passes with an
empty token while "Bearer" is rejected; and a passing header is returned
verbatim and placed unmodified into the upstream Authorization header. -/
theorem guard_iff_spec :
    (∀ a : Option String,
      get_user_token a = .error unauthorizedErr ↔
        (a = none ∨ ∃ s, a = some s ∧ pyStartsWith (pyLower s) "bearer " = false)) ∧
    unauthorizedErr.status = 401 ∧
    get_user_token (some "Bearer ") = .ok "Bearer " ∧
    get_user_token (some "Bearer") = .error unauthorizedErr ∧
    (∀ a s, get_user_token a = .ok s →
      a = some s ∧ ∀ anonKey, postgrest_headers anonKey (some s) =
        postgrest_headers anonKey none ++ [("Authorization", s)]) := by
  refine ⟨?_, rfl, ?_, ?_, ?_⟩
  · intro a
    cases a with
    | none => simp [get_user_token_none]
    | some s =>
      rw [get_user_token_some]
      by_cases hb : pyStartsWith (pyLower s) "bearer " = true
      · simp [hb]
      · rw [Bool.not_eq_true] at hb
        simp [hb]
  · rw [get_user_token_some]
    norm_num [show pyStartsWith (pyLower "Bearer ") "bearer " = true from by decide]
  · rw [get_user_token_some]
    norm_num [show pyStartsWith (pyLower "Bearer") "bearer " = false from by decide]
  · intro a s h
    cases a with
    | none => exact absurd h (by rw [get_user_token_none]; simp)
    | some t =>
      rw [get_user_token_some] at h
      by_cases hb : pyStartsWith (pyLower t) "bearer " = true
      · rw [hb] at h
        simp only [if_true, Except.ok.injEq] at h
        subst h
        refine ⟨rfl, fun anonKey => ?_⟩
        simp [postgrest_headers, pyTruthyStr, bearer_ne_empty hb]
      · rw [Bool.not_eq_true] at hb
        rw [hb] at h
        simp at h

/-- C10 witness: the guard characterization applied to a concrete passing
header. -/
theorem guard_iff_spec_witness :
    some "Bearer tok" = some "Bearer tok" ∧
      ∀ anonKey, postgrest_headers anonKey (some "Bearer tok") =
        postgrest_headers anonKey none ++ [("Authorization", "Bearer tok")] :=
  guard_iff_spec.2.2.2.2 (some "Bearer tok") "Bearer tok"
    (by rw [get_user_token_some]; norm_num [show pyStartsWith (pyLower "Bearer tok") "bearer " = true from by decide])

/-- C1: every write operation with an absent or malformed Authorization header
fails with the 401 error and issues no upstream call at all. -/
theorem auth_guard_blocks_writes (anonKey : String) (store : Store)
    (authorization : Option String)
    (h : ∀ s, authorization = some s → pyStartsWith (pyLower s) "bearer " = false) :
    (∀ p, create_vtuber anonKey store p authorization = (.error unauthorizedErr, [])) ∧
    (∀ p, create_vtubers_bulk anonKey store p authorization = (.error unauthorizedErr, [])) ∧
    (∀ vs, create_vtubers_batch anonKey store vs authorization = (.error unauthorizedErr, [])) ∧
    (∀ i p, update_vtuber anonKey store i p authorization = (.error unauthorizedErr, [])) ∧
    (∀ i, delete_vtuber anonKey store i authorization = (.error unauthorizedErr, [])) := by
  have hg := get_user_token_blocked h
  exact ⟨fun p => by simp [create_vtuber, hg],
    fun p => by simp [create_vtubers_bulk, hg],
    fun vs => by simp [create_vtubers_batch, hg],
    fun i p => by simp [update_vtuber, hg],
    fun i => by simp [delete_vtuber, hg]⟩

/-- C1 witness: a concrete malformed header ("Token abc") is rejected by the
single-create operation with 401 and an empty upstream call list. -/
theorem auth_guard_blocks_writes_witness :
    create_vtuber "anon" storeAllOk payloadAria (some "Token abc") =
      (.error unauthorizedErr, []) :=
  (auth_guard_blocks_writes "anon" storeAllOk (some "Token abc")
    (by intro s hs; injection hs with h2; subst h2; decide)).1 payloadAria

/-- C4: the two bulk-create operations are equivalent: for every anon key,
every upstream behaviour, every wrapped payload and every authorization
value, /vtubers/bulk on the wrapper behaves exactly as /vtubers/batch on the
wrapped list — same outcome and same upstream call sequence. -/
theorem bulk_batch_equivalent (anonKey : String) (store : Store)
    (payload : VTuberBulkCreate) (authorization : Option String) :
    create_vtubers_bulk anonKey store payload authorization =
      create_vtubers_batch anonKey store payload.vtubers authorization := rfl

/-- C7: an authorized delete whose upstream call does not return an error
status succeeds with status 204, whatever the upstream body; in particular
two successive deletes of the same identifier both succeed. -/
theorem delete_idempotent_success (anonKey i t : String)
    (authorization : Option String) (s₁ s₂ : Store)
    (hauth : get_user_token authorization = .ok t)
    (h₁ : (s₁ 0).status < 400) (h₂ : (s₂ 0).status < 400) :
    (delete_vtuber anonKey s₁ i authorization).1 = .ok (204, ()) ∧
    (delete_vtuber anonKey s₂ i authorization).1 = .ok (204, ()) := by
  constructor
  · simp [delete_vtuber, hauth, Nat.not_le.mpr h₁]
  · simp [delete_vtuber, hauth, Nat.not_le.mpr h₂]

/-- C7 witness: deleting a concrete identifier twice (first call reports a
deleted row, second call reports nothing) succeeds both times. -/
theorem delete_idempotent_success_witness :
    (delete_vtuber "anon" (fun _ => ⟨200, "", [rowAria]⟩) "u1" (some "Bearer tok")).1 =
      .ok (204, ()) ∧
    (delete_vtuber "anon" (fun _ => ⟨200, "", []⟩) "u1" (some "Bearer tok")).1 =
      .ok (204, ()) :=
  delete_idempotent_success "anon" "u1" "Bearer tok" (some "Bearer tok")
    (fun _ => ⟨200, "", [rowAria]⟩) (fun _ => ⟨200, "", []⟩)
    (by rw [get_user_token_some]; norm_num [show pyStartsWith (pyLower "Bearer tok") "bearer " = true from by decide])
    (by decide) (by decide)

/-- C6: on a Get-by-identifier whose upstream call succeeds, an empty result
set yields the 404 error and a nonempty one is returned unchanged with
status 200; an empty success is impossible for any upstream behaviour. -/
theorem get_vtuber_notfound_or_passthrough (anonKey i : String) (store : Store)
    (h : (store 0).status < 400) :
    ((store 0).json = [] →
      (get_vtuber anonKey store i).1 = .error ⟨404, "VTuber not found"⟩) ∧
    ((store 0).json ≠ [] →
      (get_vtuber anonKey store i).1 = .ok (200, (store 0).json)) ∧
    (∀ (st : Store) (rows : List Row),
      (get_vtuber anonKey st i).1 = .ok (200, rows) → rows ≠ []) := by
  refine ⟨?_, ?_, ?_⟩
  · intro hj
    simp [get_vtuber, Nat.not_le.mpr h, hj]
  · intro hj
    simp [get_vtuber, Nat.not_le.mpr h, hj]
  · intro st rows hok
    by_cases hs : (st 0).status ≥ 400
    · simp [get_vtuber, hs] at hok
    · by_cases hj : (st 0).json = []
      · simp [get_vtuber, hs, hj] at hok
      · simp [get_vtuber, hs, hj] at hok
        rw [← hok]
        exact hj

/-- C6 witness: a concrete empty upstream result yields the 404 error. -/
theorem get_vtuber_notfound_or_passthrough_witness :
    (get_vtuber "anon" (fun _ => ⟨200, "", []⟩) "u9").1 =
      .error ⟨404, "VTuber not found"⟩ :=
  (get_vtuber_notfound_or_passthrough "anon" "u9" (fun _ => ⟨200, "", []⟩)
    (by decide)).1 (by decide)

/-- C5: List forwards limit `min(limit, 100)` and offset `max(offset, 0)`
upstream, Search forwards `min(limit, 50)` and `max(offset, 0)`; hence, when
the upstream honours the forwarded limit, a List success carries at most 100
rows and a Search success at most 50, whatever limit the caller requested. -/
theorem pagination_caps (anonKey sort_by q : String) (sL sS : Store)
    (limit offset : Int) (agency : Option String)
    (hL : (sL 0).json.length ≤ (min limit 100).toNat)
    (hS : (sS 0).json.length ≤ (min limit 50).toNat) :
    (∃ hdrs ps, (list_vtubers anonKey sL limit offset agency sort_by).2 = [.get hdrs ps] ∧
      ("limit", toString (min limit 100)) ∈ ps ∧
      ("offset", toString (max offset 0)) ∈ ps ∧
      min limit 100 ≤ 100 ∧ 0 ≤ max offset 0) ∧
    (∀ rows, (list_vtubers anonKey sL limit offset agency sort_by).1 = .ok (200, rows) →
      rows.length ≤ 100) ∧
    (∃ hdrs ps, (search_vtubers anonKey sS q limit offset).2 = [.get hdrs ps] ∧
      ("limit", toString (min limit 50)) ∈ ps ∧
      ("offset", toString (max offset 0)) ∈ ps ∧
      min limit 50 ≤ 50) ∧
    (∀ rows, (search_vtubers anonKey sS q limit offset).1 = .ok (200, rows) →
      rows.length ≤ 50) := by
  have hcap : ∀ c : Int, 0 < c → (min limit c).toNat ≤ c.toNat := by
    intro c _
    exact Int.toNat_le_toNat (min_le_right _ _)
  refine ⟨?_, ?_, ?_, ?_⟩
  · by_cases ha : pyTruthyStr agency = true
    · refine ⟨postgrest_headers anonKey none,
        [("select", "*"), ("limit", toString (min limit 100)),
          ("offset", toString (max offset 0)), ("order", sort_by ++ ".asc"),
          ("agency", "eq." ++ agency.getD "")],
        ?_, by simp, by simp, min_le_right _ _, le_max_right _ _⟩
      by_cases hs : (sL 0).status ≥ 400 <;> simp [list_vtubers, hs, ha]
    · refine ⟨postgrest_headers anonKey none,
        [("select", "*"), ("limit", toString (min limit 100)),
          ("offset", toString (max offset 0)), ("order", sort_by ++ ".asc")],
        ?_, by simp, by simp, min_le_right _ _, le_max_right _ _⟩
      by_cases hs : (sL 0).status ≥ 400 <;> simp [list_vtubers, hs, ha]
  · intro rows hok
    by_cases hs : (sL 0).status ≥ 400
    · simp [list_vtubers, hs] at hok
    · simp [list_vtubers, hs] at hok
      calc rows.length = (sL 0).json.length := by rw [hok]
        _ ≤ (min limit 100).toNat := hL
        _ ≤ (100 : Int).toNat := hcap 100 (by norm_num)
        _ = 100 := rfl
  · refine ⟨postgrest_headers anonKey none,
      [("select", "*"), ("limit", toString (min limit 50)),
        ("offset", toString (max offset 0)),
        ("or", "(name.ilike.*" ++ q ++ "*,description.ilike.*" ++ q ++ "*)")],
      ?_, by simp, by simp, min_le_right _ _⟩
    by_cases hs : (sS 0).status ≥ 400 <;> simp [search_vtubers, hs]
  · intro rows hok
    by_cases hs : (sS 0).status ≥ 400
    · simp [search_vtubers, hs] at hok
    · simp [search_vtubers, hs] at hok
      calc rows.length = (sS 0).json.length := by rw [hok]
        _ ≤ (min limit 50).toNat := hS
        _ ≤ (50 : Int).toNat := hcap 50 (by norm_num)
        _ = 50 := rfl

/-- C5 witness: a concrete List request asking for 1000 rows, answered by an
upstream honouring the forwarded (capped) limit, returns at most 100 rows. -/
theorem pagination_caps_witness :
    ([rowAria] : List Row).length ≤ 100 :=
  (pagination_caps "anon" "name" "q" (fun _ => ⟨200, "", [rowAria]⟩)
    (fun _ => ⟨200, "", [rowAria]⟩) 1000 (-3) none (by decide) (by decide)).2.1
    [rowAria] (by decide)

/-- C8: a successful Agencies call returns a list with no duplicates, sorted
ascending in the (code-point lexicographic) order on strings. -/
theorem agencies_sorted_nodup (anonKey : String) (store : Store)
    (h : (store 0).status < 400) :
    ∃ ags, (list_agencies anonKey store).1 = .ok (200, ags) ∧
      ags.Nodup ∧ ags.Sorted (· ≤ ·) := by
  have hns : ¬ (store 0).status ≥ 400 := Nat.not_le.mpr h
  refine ⟨List.insertionSort (· ≤ ·)
      (((store 0).json.filter (fun item => pyTruthyStr item.agency)).map
        (fun item => item.agency.getD "")).dedup, ?_, ?_, ?_⟩
  · simp only [list_agencies]
    rw [if_neg hns]
  · exact ((List.perm_insertionSort _ _).nodup_iff).mpr (List.nodup_dedup _)
  · exact List.sorted_insertionSort _ _

/-- C8 witness: the sortedness and dedup facts instantiated at a concrete
upstream answer containing duplicate, empty and missing agency values. -/
theorem agencies_sorted_nodup_witness :
    ∃ ags, (list_agencies "anon" (fun _ =>
        ⟨200, "", [{ rowAria with agency := some "B" },
          { rowAria with agency := some "A" },
          { rowAria with agency := some "B" },
          { rowAria with agency := some "" },
          { rowAria with agency := none }]⟩)).1 = .ok (200, ags) ∧
      ags.Nodup ∧ ags.Sorted (· ≤ ·) :=
  agencies_sorted_nodup "anon" _ (by decide)

/-- C9: every single-call operation relays an upstream error response (status
≥ 400) to the caller unchanged: same status code, raw upstream body as the
error detail, and exactly the one upstream call (no retry). -/
theorem upstream_error_relay (anonKey i q sort_by t : String) (store : Store)
    (limit offset : Int) (agency : Option String)
    (p : VTuberCreate) (u : VTuberUpdate) (authorization : Option String)
    (herr : (store 0).status ≥ 400)
    (hauth : get_user_token authorization = .ok t)
    (hp : p.validate = true)
    (hu : u.validate = true) (hud : update_data u ≠ []) :
    (list_vtubers anonKey store limit offset agency sort_by).1 =
      .error ⟨(store 0).status, (store 0).text⟩ ∧
    (get_vtuber anonKey store i).1 = .error ⟨(store 0).status, (store 0).text⟩ ∧
    (search_vtubers anonKey store q limit offset).1 =
      .error ⟨(store 0).status, (store 0).text⟩ ∧
    (list_agencies anonKey store).1 = .error ⟨(store 0).status, (store 0).text⟩ ∧
    (create_vtuber anonKey store p authorization).1 =
      .error ⟨(store 0).status, (store 0).text⟩ ∧
    (update_vtuber anonKey store i u authorization).1 =
      .error ⟨(store 0).status, (store 0).text⟩ ∧
    (delete_vtuber anonKey store i authorization).1 =
      .error ⟨(store 0).status, (store 0).text⟩ ∧
    (list_vtubers anonKey store limit offset agency sort_by).2.length = 1 ∧
    (create_vtuber anonKey store p authorization).2.length = 1 ∧
    (update_vtuber anonKey store i u authorization).2.length = 1 ∧
    (delete_vtuber anonKey store i authorization).2.length = 1 := by
  refine ⟨?_, ?_, ?_, ?_, ?_, ?_, ?_, ?_, ?_, ?_, ?_⟩
  · by_cases ha : pyTruthyStr agency = true <;> simp [list_vtubers, herr, ha]
  · simp [get_vtuber, herr]
  · simp [search_vtubers, herr]
  · simp [list_agencies, herr]
  · simp [create_vtuber, hauth, hp, herr]
  · simp [update_vtuber, hauth, hu, hud, herr]
  · simp [delete_vtuber, hauth, herr]
  · by_cases ha : pyTruthyStr agency = true <;> simp [list_vtubers, herr, ha]
  · simp [create_vtuber, hauth, hp, herr]
  · simp [update_vtuber, hauth, hu, hud, herr]
  · simp [delete_vtuber, hauth, herr]

/-- C9 witness: a concrete upstream 500 with body "boom" is relayed as a
500/"boom" error by the List operation. -/
theorem upstream_error_relay_witness :
    (list_vtubers "anon" storeFail 10 0 none "name").1 = .error ⟨500, "boom"⟩ :=
  (upstream_error_relay "anon" "u1" "q" "name" "Bearer tok" storeFail 10 0 none
    payloadAria { agency := some "X" } (some "Bearer tok")
    (by decide)
    (by rw [get_user_token_some]; norm_num [show pyStartsWith (pyLower "Bearer tok") "bearer " = true from by decide])
    (by decide) (by decide) (by decide)).1

lemma mem_update_data (u : VTuberUpdate) (k : String) (v : JVal) :
    (k, v) ∈ update_data u ↔ (k, some v) ∈ u.model_dump := by
  simp only [update_data, List.mem_filterMap, Option.map_eq_some']
  constructor
  · rintro ⟨⟨k₂, v₂⟩, hmem, w, hw, heq⟩
    simp only at hw heq
    subst hw
    have h₁ : k₂ = k := congrArg Prod.fst heq
    have h₂ : w = v := congrArg Prod.snd heq
    subst h₁
    subst h₂
    exact hmem
  · intro hmem
    exact ⟨(k, some v), hmem, v, rfl, rfl⟩

/-- C3: an authorized, schema-valid Update strips the null fields; when no
field remains the handler fails with 400 and makes no upstream call; when
fields remain it issues exactly one patch, filtered by identifier equality,
whose body holds exactly the non-null fields; a successful upstream answer
with zero affected rows yields the 404 error. -/
theorem update_strips_nulls_and_errors (anonKey i t : String) (store : Store)
    (u : VTuberUpdate) (authorization : Option String)
    (hauth : get_user_token authorization = .ok t)
    (hu : u.validate = true) :
    (∀ k v, (k, v) ∈ update_data u ↔ (k, some v) ∈ u.model_dump) ∧
    (update_data u = [] →
      update_vtuber anonKey store i u authorization =
        (.error ⟨400, "No fields to update"⟩, [])) ∧
    (update_data u ≠ [] →
      (update_vtuber anonKey store i u authorization).2 =
        [.patch (postgrest_headers anonKey (some t)) [("id", "eq." ++ i)]
          (update_data u)] ∧
      ((store 0).status < 400 → (store 0).json = [] →
        (update_vtuber anonKey store i u authorization).1 =
          .error ⟨404, "VTuber not found"⟩)) := by
  refine ⟨mem_update_data u, ?_, ?_⟩
  · intro hd
    simp [update_vtuber, hauth, hu, hd]
  · intro hd
    constructor
    · by_cases hs : (store 0).status ≥ 400
      · simp [update_vtuber, hauth, hu, hd, hs]
      · by_cases hj : (store 0).json = [] <;>
          simp [update_vtuber, hauth, hu, hd, hs, hj]
    · intro hs hj
      simp [update_vtuber, hauth, hu, hd, Nat.not_le.mpr hs, hj]

/-- C3 witness: a concrete all-null payload yields 400 with no upstream call,
via the main theorem instantiated at an authorized request. -/
theorem update_strips_nulls_and_errors_witness :
    update_vtuber "anon" storeAllOk "u1" {} (some "Bearer tok") =
      (.error ⟨400, "No fields to update"⟩, []) :=
  (update_strips_nulls_and_errors "anon" "u1" "Bearer tok" storeAllOk {}
    (some "Bearer tok")
    (by rw [get_user_token_some]; norm_num [show pyStartsWith (pyLower "Bearer tok") "bearer " = true from by decide])
    (by decide)).2.1 (by decide)

/-- The loop of both bulk endpoints, characterized in closed form: one post
per payload in input order, and the accumulated rows are the concatenation,
in call order, of the response rows of the calls that did not fail. -/
lemma bulk_loop_spec (anonKey auth : String) (store : Store) (vs : List VTuberCreate) :
    ∀ i : Nat, bulk_loop anonKey auth store vs i =
      ((List.range vs.length).flatMap
          (fun j => if (store (i + j)).status ≥ 400 then [] else (store (i + j)).json),
        vs.map (fun v => UpstreamCall.post (postgrest_headers anonKey (some auth))
          v.model_dump)) := by
  induction vs with
  | nil => intro i; simp [bulk_loop]
  | cons v vs ih =>
    intro i
    have hmap : (List.map Nat.succ (List.range vs.length)).flatMap
        (fun j => if (store (i + j)).status ≥ 400 then [] else (store (i + j)).json) =
        (List.range vs.length).flatMap
          (fun j => if (store (i + 1 + j)).status ≥ 400 then []
            else (store (i + 1 + j)).json) := by
      rw [List.flatMap_map]
      congr 1
      funext j
      have harg : i + Nat.succ j = i + 1 + j := by omega
      rw [harg]
    simp only [bulk_loop, ih (i + 1), List.length_cons, List.range_succ_eq_map,
      List.flatMap_cons, List.map_cons, Nat.add_zero, hmap]
    by_cases hs : (store i).status ≥ 400 <;> simp [hs]

/-- C2, as stated, is refuted at this input: an authorized bulk request with
3 payloads whose 2nd has an empty name is rejected whole with the 422
validation error and no upstream call is made — the response is not the two
successfully created Profiles. -/
theorem bulk_invalid_payload_rejects_request :
    create_vtubers_bulk "anon" (fun _ => ⟨201, "", [rowAria]⟩)
      ⟨[{ name := "A" }, { name := "" }, { name := "C" }]⟩ (some "Bearer tok") =
      (.error validationErr, []) ∧
    validationErr.status = 422 ∧ validationErr ≠ unauthorizedErr := by
  refine ⟨by decide, rfl, by decide⟩

/-- C2 amended: for an authorized bulk-create whose payloads all pass schema
validation, each payload is inserted by its own sequential upstream call in
input order, the response is 201 with exactly the concatenation, in input
order, of the rows returned by the non-failing insertions, and any
insertion the upstream rejects (status ≥ 400) is skipped with no error
surfaced.  (A payload that fails schema validation — e.g. an empty name —
instead rejects the entire request before any upstream call.) -/
theorem bulk_create_skips_failed_inserts (anonKey t : String) (store : Store)
    (vs : List VTuberCreate) (authorization : Option String)
    (hauth : get_user_token authorization = .ok t)
    (hval : vs.all VTuberCreate.validate = true) :
    create_vtubers_bulk anonKey store ⟨vs⟩ authorization =
      (.ok (201, (List.range vs.length).flatMap
          (fun j => if (store j).status ≥ 400 then [] else (store j).json)),
        vs.map (fun v => UpstreamCall.post (postgrest_headers anonKey (some t))
          v.model_dump)) := by
  simp only [create_vtubers_bulk, hauth, hval, bulk_loop_spec, Nat.zero_add]
  simp

/-- An upstream oracle whose second call (index 1) fails and whose other
calls succeed, each returning one created row. -/
def storeSecondFails : Store :=
  fun i => if i = 1 then ⟨400, "invalid", []⟩ else ⟨201, "", [rowAria]⟩

/-- C2 witness: three valid payloads against an upstream that rejects the
2nd insertion yield exactly the two rows of the 1st and 3rd insertions and
three sequential posts. -/
theorem bulk_create_skips_failed_inserts_witness :
    create_vtubers_bulk "anon" storeSecondFails
      ⟨[{ name := "A" }, { name := "B" }, { name := "C" }]⟩ (some "Bearer tok") =
      (.ok (201, [rowAria, rowAria]),
        ([{ name := "A" }, { name := "B" }, { name := "C" }] : List VTuberCreate).map
          (fun v => UpstreamCall.post (postgrest_headers "anon" (some "Bearer tok"))
            v.model_dump)) :=
  (bulk_create_skips_failed_inserts "anon" "Bearer tok" storeSecondFails
    [{ name := "A" }, { name := "B" }, { name := "C" }] (some "Bearer tok")
    (by rw [get_user_token_some]; norm_num [show pyStartsWith (pyLower "Bearer tok") "bearer " = true from by decide])
    (by decide)).trans (by decide)

end VtuberApi
